import Mathlib

/-!
A shallow embedding of the multi-tenant organizational-management backend
(`projeto-backend`): the permission evaluator, tenant-scoping utility,
gradual video release evaluator, authentication flows, user updates,
journey transitions and cycle enrollment, together with theorems checking
the specification's claims against this embedding.

Modelling conventions (matching the Python/Mongo source):
* Mongo documents become Lean structures; a dict key that may be absent or
  null becomes an `Option` field (`none` = absent/null).
* Python truthiness on strings (`if s:`) is `strTruthy`: `none` and the
  empty string are falsy.
* Python truthiness on ints (`if n:`) treats `0` as falsy.
* `find_one` becomes `List.find?`; `update_one` updates the first match
  (`updateFirst`); `insert_one` appends; `$inc`/`$set` are record updates.
* `datetime.now(...)` and `uuid.uuid4()` are external inputs: each function
  that uses them takes them as explicit `now` / `fresh` parameters.
* bcrypt is an excluded external collaborator; it is modelled by an
  injective tag (`hash_password`), with `verify_password` the matching check.
* JWTs are excluded external collaborators; a token is modelled by its
  decoded payload (`Token.valid p`) or as undecodable (`Token.invalid`),
  which is exactly what the code observes through `decode_token`.
-/

set_option maxHeartbeats 1000000

namespace GestaoOrg

/-- Python truthiness of an optional string: `None` and `""` are falsy. -/
def strTruthy : Option String → Bool
  | none => false
  | some s => !s.isEmpty

/-- Python `x or d` for an optional string `x` (falsy `x` gives `d`). -/
def orElsePy (o : Option String) (d : String) : String :=
  match o with
  | none => d
  | some s => if s.isEmpty then d else s

/-- Mongo `update_one`: apply `f` to the first element satisfying `p`. -/
def updateFirst {α : Type} (p : α → Bool) (f : α → α) : List α → List α
  | [] => []
  | x :: xs => if p x then f x :: xs else x :: updateFirst p f xs

/-- Insert into a list sorted descending by `key` (helper for `sortDesc`). -/
def insertDesc {α : Type} (key : α → String) (x : α) : List α → List α
  | [] => [x]
  | y :: ys => if key y < key x then x :: y :: ys else y :: insertDesc key x ys

/-- Sort a list descending by a string `key` (Mongo `sort(field, -1)`). -/
def sortDesc {α : Type} (key : α → String) : List α → List α
  | [] => []
  | x :: xs => insertDesc key x (sortDesc key xs)

/-- An HTTP error: status code and `detail` string (`HTTPException`). -/
structure HErr where
  status : Nat
  detail : String
deriving Repr, DecidableEq

/-- The `PermissionModel` blob on documents/videos: four ID lists.
A key absent from the dict reads as `[]` (the code uses `.get(k, [])`,
and the truthiness of a list agrees with `isEmpty`). -/
structure Perms where
  user_ids : List String := []
  location_ids : List String := []
  function_ids : List String := []
  formative_stage_ids : List String := []
deriving Repr, DecidableEq

/-- A decoded JWT payload as the code reads it: `user_id` and `type`. -/
structure TokenPayload where
  user_id : String
  typ : String
deriving Repr, DecidableEq

/-- A JWT, seen through `decode_token`: either its payload or undecodable
(bad signature / expired), which raises 401 in the source. -/
inductive Token where
  | valid (p : TokenPayload)
  | invalid
deriving Repr, DecidableEq

/-- `app.utils.security.decode_token`, modelled on `Token`. -/
def decode_token : Token → Except HErr TokenPayload
  | .valid p => .ok p
  | .invalid => .error ⟨401, "Invalid token"⟩

/-- `create_reset_token` (the `type="reset"` JWT for `user_id`). -/
def create_reset_token (uid : String) : Token :=
  .valid ⟨uid, "reset"⟩

/-- bcrypt `hash_password`, modelled as an injective tag. -/
def hash_password (password : String) : String :=
  "bcrypt$" ++ password

/-- bcrypt `verify_password`: the hash matches the password. -/
def verify_password (password hashed : String) : Bool :=
  hashed == hash_password password

/-- A user document (`db.users`).  `role` is the legacy single-role field,
`roles` the new list-valued field; either may be absent.  `address` and
`family_contact` are nested blobs whose internal structure no claim
touches; they are kept as opaque serialized payloads. -/
structure UserRec where
  id : String
  tenant_id : Option String := none
  role : Option String := none
  roles : Option (List String) := none
  full_name : String := ""
  email : String := ""
  password : String := ""
  status : Option String := none
  location_id : Option String := none
  function_id : Option String := none
  formative_stage_id : Option String := none
  formador_id : Option String := none
  is_tenant_owner : Bool := false
  birth_date : Option String := none
  phone : Option String := none
  cpf : Option String := none
  photo_url : Option String := none
  family_contact : Option String := none
  education_level : Option String := none
  address : Option String := none
  created_at : String := ""
  updated_at : String := ""
deriving Repr, DecidableEq

/-- `app.utils.security.get_user_roles`: the `roles` list if present,
else the singleton of the legacy `role`, else `["user"]`. -/
def get_user_roles (u : UserRec) : List String :=
  match u.roles with
  | some rs => rs
  | none =>
    match u.role with
    | some r => [r]
    | none => ["user"]

/-- Python `if x and x in l:` for an optional string attribute `x`
(the guard pattern of `check_permission`). -/
def memTruthy (o : Option String) (l : List String) : Bool :=
  match o with
  | some s => !s.isEmpty && l.contains s
  | none => false

/-- `app.utils.permissions.check_permission`: decides whether `user` may
access a resource carrying permission blob `permissions`. -/
def check_permission (user : UserRec) (permissions : Option Perms) : Bool :=
  match permissions with
  | none => true
  | some p =>
    if user.role == some "admin" then true
    else if p.user_ids.contains user.id then true
    else if memTruthy user.location_id p.location_ids then true
    else if memTruthy user.function_id p.function_ids then true
    else if memTruthy user.formative_stage_id p.formative_stage_ids then true
    else if p.user_ids.isEmpty && p.location_ids.isEmpty &&
            p.function_ids.isEmpty && p.formative_stage_ids.isEmpty then true
    else false

/-- `app.utils.security.get_tenant_filter`: no filter for superadmins,
the caller's tenant otherwise, 403 if the caller has no tenant. -/
def get_tenant_filter (current_user : UserRec) : Except HErr (Option String) :=
  if (get_user_roles current_user).contains "superadmin" then .ok none
  else if strTruthy current_user.tenant_id then .ok current_user.tenant_id
  else .error ⟨403, "User not associated with any tenant"⟩

/-- Apply an optional tenant filter to a record's `tenant_id`. -/
def matchTenant (tf : Option String) (tid : Option String) : Bool :=
  match tf with
  | none => true
  | some t => tid == some t

/-- A tenant document (`db.tenants`). -/
structure Tenant where
  id : String
  slug : String := ""
  name : String := ""
  status : String := "active"
deriving Repr, DecidableEq

/-- A document record (`db.documents`).  `create_document` stamps no
`tenant_id` on documents, so the field is always `none` on records the
code creates; it is kept so theorems can speak about tenant ownership. -/
structure Doc where
  id : String
  title : String := ""
  is_public : Bool := false
  permissions : Option Perms := none
  views : Nat := 0
  tenant_id : Option String := none
  created_at : String := ""
deriving Repr, DecidableEq

/-- The `GradualReleaseConfig` blob on a video; keys may be absent. -/
structure Release where
  release_type : Option String := none
  prerequisite_video_id : Option String := none
  min_evaluation_score : Option Int := none
deriving Repr, DecidableEq

/-- A video record (`db.videos`).  Like documents, `create_video` stamps
no `tenant_id`. -/
structure Video where
  id : String
  title : String := ""
  is_public : Bool := false
  permissions : Option Perms := none
  gradual_release : Option Release := none
  views : Nat := 0
  tenant_id : Option String := none
  created_at : String := ""
deriving Repr, DecidableEq

/-- A video progress record (`db.video_progress`), upserted per
(video, user); `completed` defaults to false when absent. -/
structure ProgressRec where
  video_id : String
  user_id : String
  completed : Bool := false
deriving Repr, DecidableEq

/-- A video evaluation record (`db.video_evaluations`). -/
structure EvalRec where
  video_id : String
  user_id : String
  score : Option Int := none
deriving Repr, DecidableEq

/-- A stage cycle record (`db.stage_cycles`). -/
structure CycleRec where
  id : String
  tenant_id : Option String := none
  formative_stage_id : String := ""
  name : String := ""
  status : String := "planned"
  max_participants : Option Int := none
deriving Repr, DecidableEq

/-- A stage participation record (`db.stage_participations`). -/
structure PartRec where
  id : String
  tenant_id : Option String := none
  user_id : String
  cycle_id : String
  enrollment_date : String := ""
  status : String := "enrolled"
  completion_date : Option String := none
  notes : Option String := none
  evaluation_notes : Option String := none
  approved_by_id : Option String := none
  approved_by_name : Option String := none
  created_at : String := ""
  updated_at : String := ""
deriving Repr, DecidableEq

/-- A user journey transition record (`db.user_journey`). -/
structure JourneyRec where
  id : String
  tenant_id : Option String := none
  user_id : String
  from_stage_id : Option String := none
  to_stage_id : String
  notes : String := ""
  changed_by_id : String := ""
  changed_by_name : String := ""
  transition_date : String := ""
  created_at : String := ""
deriving Repr, DecidableEq

/-- A password reset record (`db.password_resets`), upserted per user. -/
structure ResetRec where
  user_id : String
  token : Token
  used : Bool := false
  created_at : String := ""
deriving Repr, DecidableEq

/-- An audit log entry (`db.audit_logs`), written by `log_action`. -/
structure AuditRec where
  id : String
  user_id : String
  user_name : String
  action : String
  resource_type : String
  resource_id : Option String := none
  details : Option (List (String × String)) := none
  tenant_id : Option String := none
  created_at : String := ""
deriving Repr, DecidableEq

/-- The document database: one list per collection the claims touch. -/
structure DB where
  users : List UserRec := []
  tenants : List Tenant := []
  documents : List Doc := []
  videos : List Video := []
  video_progress : List ProgressRec := []
  video_evaluations : List EvalRec := []
  stage_cycles : List CycleRec := []
  stage_participations : List PartRec := []
  user_journey : List JourneyRec := []
  password_resets : List ResetRec := []
  audit_logs : List AuditRec := []
deriving Repr, DecidableEq

/-- `app.utils.audit.log_action`: append an audit entry.  The generated
uuid and timestamp are supplied by the caller as `lid` / `now`. -/
def log_action (db : DB) (lid user_id user_name action resource_type : String)
    (resource_id : Option String) (details : Option (List (String × String)))
    (tenant_id : Option String) (now : String) : DB :=
  { db with audit_logs := db.audit_logs ++
      [{ id := lid, user_id := user_id, user_name := user_name,
         action := action, resource_type := resource_type,
         resource_id := resource_id, details := details,
         tenant_id := tenant_id, created_at := now }] }

/-- `normalize_user_roles`: ensure the `roles` list is materialized. -/
def normalize_user_roles (u : UserRec) : UserRec :=
  { u with roles := some (get_user_roles u) }

/-- `GET /users` (`list_users`).  The optional search/role/status/location/
function/stage criteria all AND extra conjuncts onto the Mongo query; they
are abstracted as the predicate `extra`.  Pagination is `skip`/`limit`. -/
def list_users (current_user : UserRec) (extra : UserRec → Bool)
    (page limit : Nat) (db : DB) : Except HErr (List UserRec) :=
  match get_tenant_filter current_user with
  | .error e => .error e
  | .ok tf =>
    let matched := db.users.filter (fun u => matchTenant tf u.tenant_id && extra u)
    .ok ((matched.drop ((page - 1) * limit)).take limit |>.map normalize_user_roles)

/-- `GET /users/{user_id}` (`get_user`): tenant-scoped `find_one`, 404 when
absent or outside the caller's tenant. -/
def get_user (current_user : UserRec) (user_id : String) (db : DB) :
    Except HErr UserRec :=
  match get_tenant_filter current_user with
  | .error e => .error e
  | .ok tf =>
    match db.users.find? (fun u => u.id == user_id && matchTenant tf u.tenant_id) with
    | some u => .ok (normalize_user_roles u)
    | none => .error ⟨404, "User not found"⟩

/-- `GET /documents` (`list_documents`): NO tenant filter; the query only
carries the optional search/category conjuncts (abstracted as `extra`),
sorted newest-first and paginated, then filtered by `is_public` or the
permission evaluator. -/
def list_documents (current_user : UserRec) (extra : Doc → Bool)
    (page limit : Nat) (db : DB) : List Doc :=
  let matched := db.documents.filter extra
  let pageDocs := ((sortDesc (fun d => d.created_at) matched).drop
      ((page - 1) * limit)).take limit
  pageDocs.filter (fun d => d.is_public || check_permission current_user d.permissions)

/-- `GET /documents/{doc_id}` (`get_document`): 404 when absent (no tenant
scope), 403 when neither public nor permitted; on success `$inc` the view
counter, write a `view` audit entry and return the document. -/
def get_document (current_user : UserRec) (doc_id : String) (lid now : String)
    (db : DB) : Except HErr Doc × DB :=
  match db.documents.find? (fun d => d.id == doc_id) with
  | none => (.error ⟨404, "Document not found"⟩, db)
  | some doc =>
    if !doc.is_public && !check_permission current_user doc.permissions then
      (.error ⟨403, "Access denied"⟩, db)
    else
      let docs := updateFirst (fun d => d.id == doc_id)
          (fun d => { d with views := d.views + 1 }) db.documents
      let db := { db with documents := docs }
      let db := log_action db lid current_user.id current_user.full_name
                  "view" "document" (some doc_id) (some [("title", doc.title)]) none now
      (.ok { doc with views := doc.views + 1 }, db)

/-- The `VideoAccessStatus` response model. -/
structure VideoAccessStatus where
  video_id : String
  is_unlocked : Bool
  reason : Option String := none
  prerequisite_video_title : Option String := none
  prerequisite_completed : Option Bool := none
  prerequisite_score : Option Int := none
  required_score : Option Int := none
deriving Repr, DecidableEq

/-- The fixed lock message for sequential/completion release. -/
def seqLockReason : String :=
  "Você precisa completar o vídeo anterior antes de acessar este conteúdo."

/-- The lock message for evaluation release at minimum score `m`. -/
def evalLockReason (m : Int) : String :=
  "Nota mínima de " ++ toString m ++ " na avaliação do vídeo anterior é necessária."

/-- `check_video_access`: the gradual release evaluator, ported branch by
branch from `app/routes/videos.py`. -/
def check_video_access (db : DB) (video : Video) (user_id : String) :
    VideoAccessStatus :=
  match video.gradual_release with
  | none => { video_id := video.id, is_unlocked := true }
  | some rc =>
    let release_type := rc.release_type.getD "free"
    if release_type == "free" then { video_id := video.id, is_unlocked := true }
    else if !strTruthy rc.prerequisite_video_id then
      { video_id := video.id, is_unlocked := true }
    else
      let prereq_id := rc.prerequisite_video_id.getD ""
      let prereq_title := (db.videos.find? (fun v => v.id == prereq_id)).map (fun v => v.title)
      if release_type == "sequential" || release_type == "completion" then
        let completed :=
          match db.video_progress.find?
              (fun p => p.video_id == prereq_id && p.user_id == user_id) with
          | some p => p.completed
          | none => false
        if completed then
          { video_id := video.id, is_unlocked := true,
            prerequisite_video_title := prereq_title,
            prerequisite_completed := some true }
        else
          { video_id := video.id, is_unlocked := false,
            reason := some seqLockReason,
            prerequisite_video_title := prereq_title,
            prerequisite_completed := some false }
      else if release_type == "evaluation" then
        let min_score := rc.min_evaluation_score.getD 1
        let user_score := (db.video_evaluations.find?
            (fun e => e.video_id == prereq_id && e.user_id == user_id)).bind
            (fun e => e.score)
        match user_score with
        | some s =>
          if s ≥ min_score then
            { video_id := video.id, is_unlocked := true,
              prerequisite_video_title := prereq_title,
              prerequisite_completed := some true,
              prerequisite_score := some s,
              required_score := some min_score }
          else
            { video_id := video.id, is_unlocked := false,
              reason := some (evalLockReason min_score),
              prerequisite_video_title := prereq_title,
              prerequisite_completed := some false,
              prerequisite_score := some s,
              required_score := some min_score }
        | none =>
          { video_id := video.id, is_unlocked := false,
            reason := some (evalLockReason min_score),
            prerequisite_video_title := prereq_title,
            prerequisite_completed := some false,
            prerequisite_score := none,
            required_score := some min_score }
      else { video_id := video.id, is_unlocked := true }

/-- `GET /videos/{video_id}` (`get_video`): 404 when absent, 403 when not
permitted, 403 when the gradual release keeps it locked; on success `$inc`
the view counter, write a `view` audit entry and return the video.  The
read-only response enrichment (subcategory name, comment count, average
rating) touches no state and is omitted from the returned record. -/
def get_video (current_user : UserRec) (video_id : String) (lid now : String)
    (db : DB) : Except HErr Video × DB :=
  match db.videos.find? (fun v => v.id == video_id) with
  | none => (.error ⟨404, "Video not found"⟩, db)
  | some video =>
    if !video.is_public && !check_permission current_user video.permissions then
      (.error ⟨403, "Access denied"⟩, db)
    else
      let access := check_video_access db video current_user.id
      if !access.is_unlocked then
        (.error ⟨403, orElsePy access.reason "Video locked"⟩, db)
      else
        let vids := updateFirst (fun v => v.id == video_id)
            (fun v => { v with views := v.views + 1 }) db.videos
        let db := { db with videos := vids }
        let db := log_action db lid current_user.id current_user.full_name
                    "view" "video" (some video_id) (some [("title", video.title)]) none now
        (.ok { video with views := video.views + 1 }, db)

/-- The `/auth/login` request body. -/
structure LoginRequest where
  email : String
  password : String
  tenant_slug : Option String := none
deriving Repr, DecidableEq

/-- `POST /auth/login` (`login`): with a truthy `tenant_slug` the lookup is
narrowed to that tenant (404 unknown slug, 403 inactive tenant); without
one the email is looked up across ALL tenants, with a superadmin-only
fallback lookup when no user matches the email at all.  Then: 401 on bad
credentials, 403 on inactive user, 403 on an inactive owning tenant.  On
success a login audit entry is written and the user (sans password) is
returned; token issuance carries no state and is omitted. -/
def login (db : DB) (data : LoginRequest) (lid now : String) :
    Except HErr UserRec × DB :=
  let tfStep : Except HErr (Option String) :=
    if strTruthy data.tenant_slug then
      match db.tenants.find? (fun t => some t.slug == data.tenant_slug) with
      | none => .error ⟨404, "Organization not found"⟩
      | some t =>
        if t.status != "active" then .error ⟨403, "Organization is inactive"⟩
        else .ok (some t.id)
    else .ok none
  match tfStep with
  | .error e => (.error e, db)
  | .ok tfilter =>
    let user0 := db.users.find?
        (fun u => u.email == data.email && matchTenant tfilter u.tenant_id)
    let user1 :=
      match user0 with
      | some u => some u
      | none =>
        if !strTruthy data.tenant_slug then
          db.users.find? (fun u => u.email == data.email && u.role == some "superadmin")
        else none
    match user1 with
    | none => (.error ⟨401, "Invalid credentials"⟩, db)
    | some u =>
      if !verify_password data.password u.password then
        (.error ⟨401, "Invalid credentials"⟩, db)
      else if u.status == some "inactive" then
        (.error ⟨403, "Account is inactive"⟩, db)
      else
        let tenantInactive := strTruthy u.tenant_id &&
          (match db.tenants.find? (fun t => some t.id == u.tenant_id) with
           | some t => t.status != "active"
           | none => false)
        if tenantInactive then
          (.error ⟨403, "Your organization is inactive. Please contact support."⟩, db)
        else
          match u.role with
          | none =>
            -- the source reads the legacy role key when minting the access
            -- token; a user stored without it raises KeyError (a 500)
            (.error ⟨500, "Internal Server Error"⟩, db)
          | some _ =>
            let db := log_action db lid u.id u.full_name "login" "user" (some u.id)
                none none now
            (.ok { u with password := "" }, db)

/-- The `/auth/password-reset/confirm` request body. -/
structure PasswordResetConfirm where
  token : Token
  new_password : String
deriving Repr, DecidableEq

/-- `POST /auth/password-reset/confirm` (`confirm_password_reset`):
400 on an undecodable token, 400 on a wrong token type, 400 when no
stored unused reset record matches; otherwise update the user's password
hash, mark the record used, and write an audit entry.  (When the user row
is gone the source crashes on the audit lookup; modelled as a 500.) -/
def confirm_password_reset (data : PasswordResetConfirm) (lid now : String)
    (db : DB) : Except HErr Unit × DB :=
  match data.token with
  | .invalid => (.error ⟨400, "Invalid or expired token"⟩, db)
  | .valid payload =>
    if payload.typ != "reset" then (.error ⟨400, "Invalid token type"⟩, db)
    else
      match db.password_resets.find? (fun r =>
          r.user_id == payload.user_id && decide (r.token = data.token) && !r.used) with
      | none => (.error ⟨400, "Invalid or already used token"⟩, db)
      | some _ =>
        let users := updateFirst (fun u => u.id == payload.user_id)
            (fun u => { u with password := hash_password data.new_password,
                               updated_at := now }) db.users
        let resets := updateFirst (fun r =>
            r.user_id == payload.user_id && decide (r.token = data.token))
            (fun r => { r with used := true }) db.password_resets
        let db := { db with users := users, password_resets := resets }
        match db.users.find? (fun u => u.id == payload.user_id) with
        | none => (.error ⟨500, "Internal Server Error"⟩, db)
        | some u =>
          let db := log_action db lid u.id u.full_name "password_reset_confirm"
              "user" (some u.id) none none now
          (.ok (), db)

/-- The `POST /stage-participations` request body. -/
structure PartCreate where
  user_id : String
  cycle_id : String
  enrollment_date : Option String := none
  notes : Option String := none
deriving Repr, DecidableEq

/-- `POST /stage-participations` (`create_participation`): 404 when the
user or the cycle is missing from the admin's tenant, 400 on a duplicate
(user, cycle) enrollment, 400 when a truthy `max_participants` capacity is
already reached; otherwise insert a participation with status `enrolled`
and write an audit entry.  `fresh` is the generated participation id; the
read-only response enrichment (user/cycle/stage names) touches no state
and is omitted from the returned record. -/
def create_participation (current_user : UserRec) (data : PartCreate)
    (fresh lid now : String) (db : DB) : Except HErr PartRec × DB :=
  let tenant_id := current_user.tenant_id
  match db.users.find? (fun u => u.id == data.user_id &&
      (if strTruthy tenant_id then u.tenant_id == tenant_id else true)) with
  | none => (.error ⟨404, "User not found"⟩, db)
  | some user =>
    match db.stage_cycles.find? (fun c => c.id == data.cycle_id &&
        (if strTruthy tenant_id then c.tenant_id == tenant_id else true)) with
    | none => (.error ⟨404, "Cycle not found"⟩, db)
    | some cycle =>
      if (db.stage_participations.find? (fun p =>
          p.user_id == data.user_id && p.cycle_id == data.cycle_id)).isSome then
        (.error ⟨400, "User already enrolled in this cycle"⟩, db)
      else
        let full : Bool :=
          match cycle.max_participants with
          | some m =>
            if m != 0 then
              decide (((db.stage_participations.filter
                  (fun p => p.cycle_id == data.cycle_id)).length : Int) ≥ m)
            else false
          | none => false
        if full then (.error ⟨400, "Cycle is full"⟩, db)
        else
          let p : PartRec :=
            { id := fresh, tenant_id := tenant_id, user_id := data.user_id,
              cycle_id := data.cycle_id,
              enrollment_date := orElsePy data.enrollment_date now,
              status := "enrolled", completion_date := none,
              notes := data.notes, evaluation_notes := none,
              approved_by_id := none, approved_by_name := none,
              created_at := now, updated_at := now }
          let db := { db with stage_participations := db.stage_participations ++ [p] }
          let db := log_action db lid current_user.id current_user.full_name
              "create" "stage_participation" (some p.id)
              (some [("user", user.full_name), ("cycle", cycle.name)]) none now
          (.ok p, db)

/-- The `PUT /users/{user_id}` request body (`UserUpdate`): every field
optional; `None` fields are dropped from the `$set`. -/
structure UserUpdate where
  full_name : Option String := none
  email : Option String := none
  birth_date : Option String := none
  address : Option String := none
  phone : Option String := none
  cpf : Option String := none
  location_id : Option String := none
  function_id : Option String := none
  formative_stage_id : Option String := none
  formador_id : Option String := none
  roles : Option (List String) := none
  status : Option String := none
  photo_url : Option String := none
  password : Option String := none
  family_contact : Option String := none
  education_level : Option String := none
deriving Repr, DecidableEq

/-- Python truthiness of the optional `roles` list (`None`/`[]` falsy). -/
def rolesTruthy : Option (List String) → Bool
  | none => false
  | some rs => !rs.isEmpty

/-- The `$set` of `update_user`: overwrite exactly the non-`None` body
fields (the password hashed first) and restamp `updated_at`. -/
def applyUserUpdate (u : UserRec) (b : UserUpdate) (now : String) : UserRec :=
  { u with
    full_name := b.full_name.getD u.full_name,
    email := b.email.getD u.email,
    birth_date := match b.birth_date with | some v => some v | none => u.birth_date,
    address := match b.address with | some v => some v | none => u.address,
    phone := match b.phone with | some v => some v | none => u.phone,
    cpf := match b.cpf with | some v => some v | none => u.cpf,
    location_id := match b.location_id with | some v => some v | none => u.location_id,
    function_id := match b.function_id with | some v => some v | none => u.function_id,
    formative_stage_id := match b.formative_stage_id with
                          | some v => some v
                          | none => u.formative_stage_id,
    formador_id := match b.formador_id with | some v => some v | none => u.formador_id,
    roles := match b.roles with | some v => some v | none => u.roles,
    status := match b.status with | some v => some v | none => u.status,
    photo_url := match b.photo_url with | some v => some v | none => u.photo_url,
    password := match b.password with
                | some pw => hash_password pw
                | none => u.password,
    family_contact := match b.family_contact with
                      | some v => some v
                      | none => u.family_contact,
    education_level := match b.education_level with
                       | some v => some v
                       | none => u.education_level,
    updated_at := now }

/-- `record_journey_transition` (`app/routes/users.py`): append one
`UserJourney` record for a formative-stage change.  `jid` is the
generated uuid, `now` the timestamp. -/
def record_journey_transition (db : DB) (jid user_id : String)
    (from_stage_id : Option String) (to_stage_id : String)
    (tenant_id : Option String) (changed_by : UserRec)
    (notes : Option String) (now : String) : DB :=
  { db with user_journey := db.user_journey ++
      [{ id := jid, tenant_id := tenant_id, user_id := user_id,
         from_stage_id := from_stage_id, to_stage_id := to_stage_id,
         notes := orElsePy notes "Transição automática via atualização de usuário",
         changed_by_id := changed_by.id, changed_by_name := changed_by.full_name,
         transition_date := now, created_at := now }] }

/-- `PUT /users/{user_id}` (`update_user`), ported step by step:
authorization (admins, or self without touching roles), tenant-scoped
lookup, tenant-owner demotion guard, email-uniqueness check, automatic
journey record when the formative stage changes to a different truthy
value, then the partial `$set`, an audit entry, and the re-read response.
`jid` is the uuid generated for a journey record, `lid` for the audit
entry. -/
def update_user (current_user : UserRec) (user_id : String) (user_data : UserUpdate)
    (jid lid now : String) (db : DB) : Except HErr UserRec × DB :=
  let current_roles := get_user_roles current_user
  let is_admin_user := current_roles.contains "admin" || current_roles.contains "superadmin"
  if !is_admin_user && current_user.id != user_id then
    (.error ⟨403, "Permission denied"⟩, db)
  else if !is_admin_user && rolesTruthy user_data.roles then
    (.error ⟨403, "Cannot change roles"⟩, db)
  else
    match db.users.find? (fun u => u.id == user_id &&
        (if !current_roles.contains "superadmin" && strTruthy current_user.tenant_id
         then u.tenant_id == current_user.tenant_id else true)) with
    | none => (.error ⟨404, "User not found"⟩, db)
    | some existing =>
      if existing.is_tenant_owner && !current_roles.contains "superadmin" &&
         rolesTruthy user_data.roles && !(user_data.roles.getD []).contains "admin" then
        (.error ⟨403, "Cannot change role of tenant owner"⟩, db)
      else
        let emailConflict : Bool :=
          match user_data.email with
          | some em =>
            em != existing.email &&
            (db.users.find? (fun u => u.email == em &&
                (if strTruthy existing.tenant_id then u.tenant_id == existing.tenant_id
                 else true))).isSome
          | none => false
        if emailConflict then (.error ⟨400, "Email already registered"⟩, db)
        else
          let db1 :=
            match user_data.formative_stage_id with
            | some s =>
              if !s.isEmpty && existing.formative_stage_id != some s then
                record_journey_transition db jid user_id existing.formative_stage_id s
                  existing.tenant_id current_user none now
              else db
            | none => db
          let users2 := updateFirst (fun u => u.id == user_id)
              (fun u => applyUserUpdate u user_data now) db1.users
          let db2 := { db1 with users := users2 }
          let db3 := log_action db2 lid current_user.id current_user.full_name
              "update" "user" (some user_id) none none now
          match db3.users.find? (fun u => u.id == user_id) with
          | some u => (.ok { normalize_user_roles u with password := "" }, db3)
          | none => (.error ⟨500, "Internal Server Error"⟩, db3)

/-! ## Helper lemmas -/

theorem memTruthy_nil (o : Option String) : memTruthy o [] = false := by
  cases o <;> simp [memTruthy]

theorem find?_congr {α : Type} (p q : α → Bool) (l : List α)
    (h : ∀ a, p a = q a) : l.find? p = l.find? q := by
  induction l with
  | nil => rfl
  | cons x xs ih =>
    simp only [List.find?]
    rw [h x]
    cases q x <;> simp [ih]

/-! ## Claim C2 -/

/-- C2 (amended): `check_permission(U, P)` returns true whenever `P` is
absent/null, whenever `U`'s legacy `role` field is `admin`, and whenever
all four ID lists in `P` are empty.  (The role check is only against the
legacy `role` field and only for `admin`; `superadmin` is not
special-cased — see the counterexample.) -/
theorem check_permission_allow_cases (u : UserRec) (p : Perms) :
    check_permission u none = true ∧
    (u.role = some "admin" → check_permission u (some p) = true) ∧
    (p.user_ids = [] → p.location_ids = [] → p.function_ids = [] →
      p.formative_stage_ids = [] → check_permission u (some p) = true) := by
  refine ⟨rfl, ?_, ?_⟩
  · intro h
    simp [check_permission, h]
  · intro h1 h2 h3 h4
    simp [check_permission, h1, h2, h3, h4, memTruthy_nil]

/-- Witness for C2's theorem at concrete inputs. -/
theorem check_permission_allow_cases_witness :
    check_permission { id := "w" } none = true ∧
    check_permission { id := "w", role := some "admin" }
      (some { user_ids := ["x"] }) = true ∧
    check_permission { id := "w" } (some {}) = true := by
  refine ⟨(check_permission_allow_cases { id := "w" } { user_ids := ["x"] }).1, ?_, ?_⟩
  · exact (check_permission_allow_cases { id := "w", role := some "admin" }
      { user_ids := ["x"] }).2.1 rfl
  · exact (check_permission_allow_cases { id := "w" } {}).2.2 rfl rfl rfl rfl

/-- C2 counterexample: a user whose role is `superadmin` is NOT allowed by
`check_permission` when the permission set is non-empty and does not match
them — the code only special-cases the literal role `admin`. -/
theorem check_permission_superadmin_denied :
    check_permission { id := "u1", role := some "superadmin" }
      (some { user_ids := ["u2"] }) = false := by decide

/-! ## Claim C4 -/

/-- C4: for a video whose release type is `sequential` (or `completion`)
with a truthy prerequisite id, access is unlocked iff the viewer's
progress record on the prerequisite has `completed = true` (a missing
record counts as not completed); otherwise it is locked with the
"must complete previous video" reason, the prerequisite's title and the
completion flag. -/
theorem sequential_release_unlocked_iff (db : DB) (video : Video) (rc : Release)
    (pid uid : String)
    (hrc : video.gradual_release = some rc)
    (hrt : rc.release_type.getD "free" = "sequential" ∨
           rc.release_type.getD "free" = "completion")
    (hpid : rc.prerequisite_video_id = some pid)
    (hne : pid ≠ "") :
    ((check_video_access db video uid).is_unlocked = true ↔
      (db.video_progress.find? (fun p => p.video_id == pid && p.user_id == uid)).any
        (fun p => p.completed) = true) ∧
    ((check_video_access db video uid).is_unlocked = false →
      (check_video_access db video uid).reason = some seqLockReason ∧
      (check_video_access db video uid).prerequisite_video_title =
        (db.videos.find? (fun v => v.id == pid)).map (fun v => v.title) ∧
      (check_video_access db video uid).prerequisite_completed = some false) := by
  have hempty : pid.isEmpty = false := by
    have h1 : ¬ (pid.isEmpty = true) := fun h => hne ((String.isEmpty_iff pid).mp h)
    exact Bool.eq_false_iff.mpr h1
  have hfree : (rc.release_type.getD "free" == "free") = false := by
    rcases hrt with h | h <;> rw [h] <;> decide
  have hseq : (rc.release_type.getD "free" == "sequential" ||
      rc.release_type.getD "free" == "completion") = true := by
    rcases hrt with h | h <;> rw [h] <;> decide
  unfold check_video_access
  rw [hrc]
  simp only [hpid, hfree, hseq, strTruthy, hempty, Option.getD_some,
    Bool.not_false, if_true, Bool.false_eq_true, if_false]
  cases hfind : db.video_progress.find?
      (fun p => p.video_id == pid && p.user_id == uid) with
  | none => simp [hfind]
  | some p =>
    cases hp : p.completed <;> simp [hfind, hp]

/-- Witness for C4's theorem: a concrete sequential-release video whose
prerequisite is completed is unlocked. -/
theorem sequential_release_unlocked_iff_witness :
    (check_video_access
      { videos := [{ id := "v1", title := "Intro" }],
        video_progress := [{ video_id := "v1", user_id := "u1", completed := true }] }
      { id := "v2",
        gradual_release := some { release_type := some "sequential",
                                  prerequisite_video_id := some "v1" } }
      "u1").is_unlocked = true := by
  have h := sequential_release_unlocked_iff
    { videos := [{ id := "v1", title := "Intro" }],
      video_progress := [{ video_id := "v1", user_id := "u1", completed := true }] }
    { id := "v2",
      gradual_release := some { release_type := some "sequential",
                                prerequisite_video_id := some "v1" } }
    { release_type := some "sequential", prerequisite_video_id := some "v1" }
    "v1" "u1" rfl (Or.inl rfl) rfl (by decide)
  exact h.1.mpr (by decide)

/-! ## Claim C5 -/

/-- C5: for a video whose release type is `evaluation` with a truthy
prerequisite id and minimum score `M = min_evaluation_score` (default 1),
access is unlocked iff the viewer's evaluation on the prerequisite exists
with `score ≥ M`; otherwise it is locked with a reason naming `M`, the
prerequisite's title, the viewer's current score (if any) and the
required score. -/
theorem evaluation_release_unlocked_iff (db : DB) (video : Video) (rc : Release)
    (pid uid : String)
    (hrc : video.gradual_release = some rc)
    (hrt : rc.release_type.getD "free" = "evaluation")
    (hpid : rc.prerequisite_video_id = some pid)
    (hne : pid ≠ "") :
    ((check_video_access db video uid).is_unlocked = true ↔
      ∃ s : Int,
        (db.video_evaluations.find? (fun e => e.video_id == pid && e.user_id == uid)).bind
          (fun e => e.score) = some s ∧
        rc.min_evaluation_score.getD 1 ≤ s) ∧
    ((check_video_access db video uid).is_unlocked = false →
      (check_video_access db video uid).reason =
        some (evalLockReason (rc.min_evaluation_score.getD 1)) ∧
      (check_video_access db video uid).prerequisite_video_title =
        (db.videos.find? (fun v => v.id == pid)).map (fun v => v.title) ∧
      (check_video_access db video uid).prerequisite_score =
        (db.video_evaluations.find? (fun e => e.video_id == pid && e.user_id == uid)).bind
          (fun e => e.score) ∧
      (check_video_access db video uid).required_score =
        some (rc.min_evaluation_score.getD 1)) := by
  have hempty : pid.isEmpty = false := by
    have h1 : ¬ (pid.isEmpty = true) := fun h => hne ((String.isEmpty_iff pid).mp h)
    exact Bool.eq_false_iff.mpr h1
  have hfree : (rc.release_type.getD "free" == "free") = false := by
    rw [hrt]; decide
  have hseq : (rc.release_type.getD "free" == "sequential" ||
      rc.release_type.getD "free" == "completion") = false := by
    rw [hrt]; decide
  have heval : (rc.release_type.getD "free" == "evaluation") = true := by
    rw [hrt]; decide
  unfold check_video_access
  rw [hrc]
  simp only [hpid, hfree, hseq, heval, strTruthy, hempty, Option.getD_some,
    Bool.not_false, if_true, Bool.false_eq_true, if_false]
  cases hscore : (db.video_evaluations.find?
      (fun e => e.video_id == pid && e.user_id == uid)).bind (fun e => e.score) with
  | none => simp [hscore]
  | some s =>
    rcases le_or_lt (rc.min_evaluation_score.getD 1) s with hge | hlt
    · simp [hscore, if_pos hge, hge]
    · simp [hscore, if_neg (not_le.mpr hlt), hlt, not_le]

/-- Witness for C5's theorem: a concrete evaluation-release video with a
score below the required minimum is locked with the score details. -/
theorem evaluation_release_unlocked_iff_witness :
    (check_video_access
      { videos := [{ id := "v1", title := "Intro" }],
        video_evaluations := [{ video_id := "v1", user_id := "u1", score := some 2 }] }
      { id := "v2",
        gradual_release := some { release_type := some "evaluation",
                                  prerequisite_video_id := some "v1",
                                  min_evaluation_score := some 3 } }
      "u1").required_score = some 3 := by
  have h := evaluation_release_unlocked_iff
    { videos := [{ id := "v1", title := "Intro" }],
      video_evaluations := [{ video_id := "v1", user_id := "u1", score := some 2 }] }
    { id := "v2",
      gradual_release := some { release_type := some "evaluation",
                                prerequisite_video_id := some "v1",
                                min_evaluation_score := some 3 } }
    { release_type := some "evaluation", prerequisite_video_id := some "v1",
      min_evaluation_score := some 3 }
    "v1" "u1" rfl rfl rfl (by decide)
  exact (h.2 (by decide)).2.2.2

/-! ## Claim C1 -/

/-- C1 (amended): tenant isolation holds for the endpoints that apply
`get_tenant_filter` (shown here for the user collection): a non-superadmin
viewer with tenant `T` receives only users with `tenant_id = T` from
`list_users`, and `get_user` on an id that no tenant-`T` user carries
yields 404.  Document/video list and get apply NO tenant filter — see the
counterexample. -/
theorem tenant_isolation_user_endpoints (viewer : UserRec) (extra : UserRec → Bool)
    (page limit : Nat) (db : DB) (T uid : String)
    (hsa : (get_user_roles viewer).contains "superadmin" = false)
    (ht : viewer.tenant_id = some T) (hT : T ≠ "") :
    (∀ us, list_users viewer extra page limit db = .ok us →
      ∀ u ∈ us, u.tenant_id = some T) ∧
    ((∀ u ∈ db.users, u.id = uid → u.tenant_id ≠ some T) →
      get_user viewer uid db = .error ⟨404, "User not found"⟩) := by
  have hempty : T.isEmpty = false := by
    have h1 : ¬ (T.isEmpty = true) := fun h => hT ((String.isEmpty_iff T).mp h)
    exact Bool.eq_false_iff.mpr h1
  have htf : get_tenant_filter viewer = .ok (some T) := by
    simp [get_tenant_filter, ht, strTruthy, hempty]
    simpa using hsa
  constructor
  · intro us hus u hu
    rw [list_users, htf] at hus
    cases hus
    rcases List.mem_map.mp hu with ⟨v, hv, rfl⟩
    have hv' := List.take_subset _ _ hv
    have hv'' := List.drop_subset _ _ hv'
    have hmem := (List.mem_filter.mp hv'').2
    have := (Bool.and_elim_left hmem)
    simp only [matchTenant, beq_iff_eq] at this
    simpa [normalize_user_roles] using this
  · intro hnone
    rw [get_user, htf]
    have : db.users.find?
        (fun u => u.id == uid && matchTenant (some T) u.tenant_id) = none := by
      rw [List.find?_eq_none]
      intro u hu hcontra
      have h1 := Bool.and_elim_left hcontra
      have h2 := Bool.and_elim_right hcontra
      simp only [beq_iff_eq] at h1
      simp only [matchTenant, beq_iff_eq] at h2
      exact hnone u hu h1 h2
    simp [this]

/-- Witness for C1's theorem at a concrete input: a tenant-`t1` admin
listing users sees only tenant-`t1` users, and gets 404 for a foreign id. -/
theorem tenant_isolation_user_endpoints_witness :
    (∀ us, list_users
        { id := "a1", tenant_id := some "t1", roles := some ["admin"] }
        (fun _ => true) 1 20
        { users := [{ id := "a1", tenant_id := some "t1", roles := some ["admin"] },
                    { id := "b1", tenant_id := some "t2" }] } = .ok us →
      ∀ u ∈ us, u.tenant_id = some "t1") ∧
    get_user { id := "a1", tenant_id := some "t1", roles := some ["admin"] } "b1"
      { users := [{ id := "a1", tenant_id := some "t1", roles := some ["admin"] },
                  { id := "b1", tenant_id := some "t2" }] } =
      .error ⟨404, "User not found"⟩ := by
  have h := tenant_isolation_user_endpoints
    { id := "a1", tenant_id := some "t1", roles := some ["admin"] }
    (fun _ => true) 1 20
    { users := [{ id := "a1", tenant_id := some "t1", roles := some ["admin"] },
                { id := "b1", tenant_id := some "t2" }] }
    "t1" "b1" (by decide) rfl (by decide)
  exact ⟨h.1, h.2 (by decide)⟩

/-- Concrete data for the C1 counterexample: a regular user of tenant
`t2`, and a public document (documents are created without `tenant_id`). -/
def c1Viewer : UserRec :=
  { id := "u9", tenant_id := some "t2", role := some "user", roles := some ["user"] }

/-- The public document another tenant's admin uploaded. -/
def c1Doc : Doc :=
  { id := "d1", title := "Handbook", is_public := true, created_at := "2024-01-01" }

/-- The database for the C1 counterexample. -/
def c1DB : DB := { users := [c1Viewer], documents := [c1Doc] }

/-- C1 counterexample: the document list/get endpoints apply no tenant
filter at all — a tenant-`t2` user receives a document that does not carry
`tenant_id = t2` (documents are stored without any tenant id), and
fetching it by id returns the record (with its view counter bumped), not
404. -/
theorem cross_tenant_document_leak :
    (list_documents c1Viewer (fun _ => true) 1 20 c1DB = [c1Doc] ∧
      c1Doc.tenant_id ≠ some "t2") ∧
    (get_document c1Viewer "d1" "l1" "2024-02-02" c1DB).1 =
      .ok { c1Doc with views := 1 } := by
  exact ⟨⟨rfl, by decide⟩, rfl⟩

/-! ## Claim C3 -/

/-- C3 (amended): when no `tenant_slug` is supplied, `login` looks the
email up across ALL tenants; the first user whose email matches (of any
role) authenticates, provided the password verifies, the user is not
inactive, and the user's owning tenant — when present and found — is
active.  The superadmin-only lookup is merely a fallback for when no user
at all matches the email. -/
theorem login_without_slug_any_tenant (db : DB) (data : LoginRequest) (u : UserRec)
    (lid now : String)
    (hslug : strTruthy data.tenant_slug = false)
    (hfind : db.users.find? (fun v => v.email == data.email) = some u)
    (hpw : verify_password data.password u.password = true)
    (hactive : u.status ≠ some "inactive")
    (htenant : (strTruthy u.tenant_id &&
        (match db.tenants.find? (fun t => some t.id == u.tenant_id) with
         | some t => t.status != "active"
         | none => false)) = false)
    (r0 : String) (hrole : u.role = some r0) :
    (login db data lid now).1 = .ok { u with password := "" } := by
  have h0 : db.users.find?
      (fun v => v.email == data.email && matchTenant none v.tenant_id) = some u := by
    rw [find?_congr _ (fun v => v.email == data.email)]
    · exact hfind
    · intro a
      simp [matchTenant]
  have hst : (u.status == some "inactive") = false := beq_eq_false_iff_ne.mpr hactive
  simp [login, hslug, h0, hpw, hst, htenant, hrole]

/-- Witness for C3's theorem: the concrete tenant-`t1` user of the
counterexample logs in without a slug via the theorem. -/
theorem login_without_slug_any_tenant_witness :
    (login
      { tenants := [{ id := "t1", slug := "org", status := "active" }],
        users := [{ id := "u1", email := "ana@org.com",
                    password := hash_password "pw", role := some "user",
                    status := some "active", tenant_id := some "t1",
                    full_name := "Ana" }] }
      { email := "ana@org.com", password := "pw" } "w1" "now").1 =
      .ok { id := "u1", email := "ana@org.com", password := "",
            role := some "user", status := some "active",
            tenant_id := some "t1", full_name := "Ana" } := by
  exact login_without_slug_any_tenant
    { tenants := [{ id := "t1", slug := "org", status := "active" }],
      users := [{ id := "u1", email := "ana@org.com",
                  password := hash_password "pw", role := some "user",
                  status := some "active", tenant_id := some "t1",
                  full_name := "Ana" }] }
    { email := "ana@org.com", password := "pw" }
    { id := "u1", email := "ana@org.com", password := hash_password "pw",
      role := some "user", status := some "active", tenant_id := some "t1",
      full_name := "Ana" }
    "w1" "now" rfl rfl (by decide) (by decide) (by decide) "user" rfl

/-- The non-superadmin user of the C3 counterexample. -/
def c3User : UserRec :=
  { id := "u2", email := "user@acme.com", password := hash_password "secret",
    role := some "user", status := some "active", tenant_id := some "t9",
    full_name := "Bea" }

/-- The database of the C3 counterexample: an active tenant and one
regular (non-superadmin) user belonging to it. -/
def c3DB : DB :=
  { tenants := [{ id := "t9", slug := "acme", status := "active" }],
    users := [c3User] }

/-- C3 counterexample: a non-superadmin user CAN authenticate without a
`tenant_slug` — the email lookup runs across all tenants, so the login
succeeds even though the claim says it must be rejected. -/
theorem login_without_slug_nonsuperadmin_succeeds :
    (login c3DB { email := "user@acme.com", password := "secret" } "l1" "now").1 =
      .ok { c3User with password := "" } ∧
    c3User.role ≠ some "superadmin" := by
  exact ⟨rfl, by decide⟩

/-! ## Claim C6 -/

/-- C6 (amended): given that the enrolling user exists in the admin's
tenant scope, `create_participation` fails 404 creating nothing when the
cycle is missing, fails 400 creating nothing on a duplicate (user, cycle)
enrollment, fails 400 creating nothing when a truthy (nonzero)
`max_participants` is already reached, and otherwise creates exactly one
participation with status `enrolled`.  (A capacity of 0 is falsy in the
source and disables the check — see the counterexample.) -/
theorem enrollment_conditions (viewer : UserRec) (data : PartCreate)
    (fresh lid now : String) (db : DB) (user : UserRec)
    (huser : db.users.find? (fun u => u.id == data.user_id &&
        (if strTruthy viewer.tenant_id then u.tenant_id == viewer.tenant_id
         else true)) = some user) :
    (db.stage_cycles.find? (fun c => c.id == data.cycle_id &&
        (if strTruthy viewer.tenant_id then c.tenant_id == viewer.tenant_id
         else true)) = none →
      (create_participation viewer data fresh lid now db).1 =
        .error ⟨404, "Cycle not found"⟩ ∧
      ((create_participation viewer data fresh lid now db).2).stage_participations =
        db.stage_participations) ∧
    (∀ cycle, db.stage_cycles.find? (fun c => c.id == data.cycle_id &&
        (if strTruthy viewer.tenant_id then c.tenant_id == viewer.tenant_id
         else true)) = some cycle →
      ((db.stage_participations.find? (fun p =>
          p.user_id == data.user_id && p.cycle_id == data.cycle_id)).isSome = true →
        (create_participation viewer data fresh lid now db).1 =
          .error ⟨400, "User already enrolled in this cycle"⟩ ∧
        ((create_participation viewer data fresh lid now db).2).stage_participations =
          db.stage_participations) ∧
      ((db.stage_participations.find? (fun p =>
          p.user_id == data.user_id && p.cycle_id == data.cycle_id)).isSome = false →
        ((match cycle.max_participants with
          | some m =>
            if m != 0 then
              decide (((db.stage_participations.filter
                  (fun p => p.cycle_id == data.cycle_id)).length : Int) ≥ m)
            else false
          | none => false) = true →
          (create_participation viewer data fresh lid now db).1 =
            .error ⟨400, "Cycle is full"⟩ ∧
          ((create_participation viewer data fresh lid now db).2).stage_participations =
            db.stage_participations) ∧
        ((match cycle.max_participants with
          | some m =>
            if m != 0 then
              decide (((db.stage_participations.filter
                  (fun p => p.cycle_id == data.cycle_id)).length : Int) ≥ m)
            else false
          | none => false) = false →
          (create_participation viewer data fresh lid now db).1 =
            .ok { id := fresh, tenant_id := viewer.tenant_id,
                  user_id := data.user_id, cycle_id := data.cycle_id,
                  enrollment_date := orElsePy data.enrollment_date now,
                  status := "enrolled", notes := data.notes,
                  created_at := now, updated_at := now } ∧
          ((create_participation viewer data fresh lid now db).2).stage_participations =
            db.stage_participations ++
              [{ id := fresh, tenant_id := viewer.tenant_id,
                 user_id := data.user_id, cycle_id := data.cycle_id,
                 enrollment_date := orElsePy data.enrollment_date now,
                 status := "enrolled", notes := data.notes,
                 created_at := now, updated_at := now }]))) := by
  constructor
  · intro hcy
    simp only [create_participation]
    rw [huser, hcy]
    exact ⟨rfl, rfl⟩
  · intro cycle hcy
    constructor
    · intro hdup
      simp only [create_participation]
      rw [huser, hcy, hdup]
      exact ⟨rfl, rfl⟩
    · intro hdup
      constructor
      · intro hfull
        simp only [create_participation]
        rw [huser, hcy, hdup]
        dsimp only
        rw [hfull]
        exact ⟨rfl, rfl⟩
      · intro hfull
        simp only [create_participation]
        rw [huser, hcy, hdup]
        dsimp only
        rw [hfull]
        exact ⟨rfl, rfl⟩

/-- Witness for C6's theorem: enrolling into a cycle with one free seat
succeeds and appends the `enrolled` participation. -/
theorem enrollment_conditions_witness :
    (create_participation
      { id := "adm", tenant_id := some "t1", roles := some ["admin"],
        full_name := "Adm" }
      { user_id := "u2", cycle_id := "c1" } "p1" "l1" "now"
      { users := [{ id := "u2", tenant_id := some "t1" }],
        stage_cycles := [{ id := "c1", tenant_id := some "t1",
                           max_participants := some 2 }],
        stage_participations := [{ id := "p0", user_id := "u3",
                                   cycle_id := "c1" }] }).1 =
      .ok { id := "p1", tenant_id := some "t1", user_id := "u2",
            cycle_id := "c1", enrollment_date := "now", status := "enrolled",
            created_at := "now", updated_at := "now" } := by
  have h := enrollment_conditions
    { id := "adm", tenant_id := some "t1", roles := some ["admin"],
      full_name := "Adm" }
    { user_id := "u2", cycle_id := "c1" } "p1" "l1" "now"
    { users := [{ id := "u2", tenant_id := some "t1" }],
      stage_cycles := [{ id := "c1", tenant_id := some "t1",
                         max_participants := some 2 }],
      stage_participations := [{ id := "p0", user_id := "u3",
                                 cycle_id := "c1" }] }
    { id := "u2", tenant_id := some "t1" } rfl
  exact (((h.2 { id := "c1", tenant_id := some "t1", max_participants := some 2 }
    rfl).2 rfl).2 rfl).1

/-- The admin and database of the C6 counterexample: a cycle whose
`max_participants` is set to 0 and holds no participants. -/
def c6DB : DB :=
  { users := [{ id := "adm", tenant_id := some "t1", roles := some ["admin"],
                full_name := "Adm" },
              { id := "u2", tenant_id := some "t1" }],
    stage_cycles := [{ id := "c1", tenant_id := some "t1",
                       max_participants := some 0 }] }

/-- C6 counterexample: with `max_participants = 0` the cycle is at
capacity (0 participants, 0 seats), yet enrollment SUCCEEDS and creates a
participation — Python truthiness of `0` disables the capacity check, so
the claim's "count strictly below max_participants whenever it is set"
fails. -/
theorem enrollment_zero_capacity_not_rejected :
    (c6DB.stage_cycles.map (fun c => c.max_participants) = [some 0]) ∧
    (create_participation
        { id := "adm", tenant_id := some "t1", roles := some ["admin"],
          full_name := "Adm" }
        { user_id := "u2", cycle_id := "c1" } "p1" "l1" "now" c6DB).1 =
      .ok { id := "p1", tenant_id := some "t1", user_id := "u2",
            cycle_id := "c1", enrollment_date := "now", status := "enrolled",
            created_at := "now", updated_at := "now" } ∧
    ((create_participation
        { id := "adm", tenant_id := some "t1", roles := some ["admin"],
          full_name := "Adm" }
        { user_id := "u2", cycle_id := "c1" } "p1" "l1" "now"
        c6DB).2).stage_participations.length = 1 := by
  exact ⟨rfl, rfl, rfl⟩

/-! ## Claim C7 -/

/-- C7: when an admin's `update_user` changes the target's
`formative_stage_id` to a different truthy stage, exactly one
`UserJourney` record capturing (from stage, to stage, changed-by,
timestamp) is appended, and the stored `StageParticipation` collection is
not touched in any way. -/
theorem stage_change_records_journey (viewer : UserRec) (user_id : String)
    (body : UserUpdate) (jid lid now : String) (db : DB) (existing : UserRec)
    (s : String)
    (hadmin : (get_user_roles viewer).contains "admin" = true)
    (hfind : db.users.find? (fun u => u.id == user_id &&
        (if !(get_user_roles viewer).contains "superadmin" &&
            strTruthy viewer.tenant_id
         then u.tenant_id == viewer.tenant_id else true)) = some existing)
    (howner : existing.is_tenant_owner = false)
    (hemail : body.email = none)
    (hstage : body.formative_stage_id = some s)
    (hs : s ≠ "")
    (hdiff : existing.formative_stage_id ≠ some s) :
    ((update_user viewer user_id body jid lid now db).2).user_journey =
      db.user_journey ++
        [{ id := jid, tenant_id := existing.tenant_id, user_id := user_id,
           from_stage_id := existing.formative_stage_id, to_stage_id := s,
           notes := "Transição automática via atualização de usuário",
           changed_by_id := viewer.id, changed_by_name := viewer.full_name,
           transition_date := now, created_at := now }] ∧
    ((update_user viewer user_id body jid lid now db).2).stage_participations =
      db.stage_participations := by
  have hsE : s.isEmpty = false := by
    have h1 : ¬ (s.isEmpty = true) := fun h => hs ((String.isEmpty_iff s).mp h)
    exact Bool.eq_false_iff.mpr h1
  have hne2 : (existing.formative_stage_id != some s) = true := bne_iff_ne.mpr hdiff
  have hguard : (!s.isEmpty && (existing.formative_stage_id != some s)) = true := by
    simp [hsE, hne2]
  simp only [update_user]
  rw [hadmin, hfind, hemail, hstage]
  dsimp only
  rw [howner]
  simp only [hguard, hsE, hne2, Bool.true_or, Bool.not_true, Bool.false_and,
    Bool.not_false, Bool.true_and, Bool.and_true, Bool.false_eq_true,
    Bool.false_or, if_false, if_true, ite_false, ite_true]
  split <;>
    simp [record_journey_transition, log_action, orElsePy]

/-- Witness for C7's theorem: a concrete admin moves a member from stage
`s1` to `s2`; one journey record is appended and no participation is
created. -/
theorem stage_change_records_journey_witness :
    ((update_user
      { id := "adm", tenant_id := some "t1", roles := some ["admin"],
        full_name := "Adm" }
      "u2" { formative_stage_id := some "s2" } "j1" "l1" "now"
      { users := [{ id := "u2", tenant_id := some "t1",
                    formative_stage_id := some "s1" }] }).2).user_journey =
      [{ id := "j1", tenant_id := some "t1", user_id := "u2",
         from_stage_id := some "s1", to_stage_id := "s2",
         notes := "Transição automática via atualização de usuário",
         changed_by_id := "adm", changed_by_name := "Adm",
         transition_date := "now", created_at := "now" }] ∧
    ((update_user
      { id := "adm", tenant_id := some "t1", roles := some ["admin"],
        full_name := "Adm" }
      "u2" { formative_stage_id := some "s2" } "j1" "l1" "now"
      { users := [{ id := "u2", tenant_id := some "t1",
                    formative_stage_id := some "s1" }] }).2).stage_participations =
      [] := by
  exact stage_change_records_journey
    { id := "adm", tenant_id := some "t1", roles := some ["admin"],
      full_name := "Adm" }
    "u2" { formative_stage_id := some "s2" } "j1" "l1" "now"
    { users := [{ id := "u2", tenant_id := some "t1",
                  formative_stage_id := some "s1" }] }
    { id := "u2", tenant_id := some "t1", formative_stage_id := some "s1" }
    "s2" rfl rfl rfl rfl rfl (by decide) (by decide)

/-! ## Claim C9 -/

/-- C9: calling `update_user` with a body whose fields are all `None`
leaves every stored field of the target user unchanged except
`updated_at` (and leaves every other user untouched): the stored user
list changes exactly by restamping `updated_at` on the target. -/
theorem all_none_update_only_touches_updated_at (viewer : UserRec)
    (user_id : String) (jid lid now : String) (db : DB) (r : UserRec)
    (h : (update_user viewer user_id {} jid lid now db).1 = .ok r) :
    ((update_user viewer user_id {} jid lid now db).2).users =
      updateFirst (fun u => u.id == user_id)
        (fun u => { u with updated_at := now }) db.users := by
  simp only [update_user] at h ⊢
  repeat' split at h
  all_goals simp_all [applyUserUpdate, log_action]
  repeat' split
  all_goals simp_all

/-- Witness for C9's theorem: a concrete all-`None` update restamps only
`updated_at`. -/
theorem all_none_update_only_touches_updated_at_witness :
    ((update_user
      { id := "adm", tenant_id := some "t1", roles := some ["admin"],
        full_name := "Adm" }
      "u2" {} "j1" "l1" "later"
      { users := [{ id := "u2", tenant_id := some "t1", full_name := "Bea",
                    email := "b@x.y", updated_at := "earlier" }] }).2).users =
      [{ id := "u2", tenant_id := some "t1", full_name := "Bea",
         email := "b@x.y", updated_at := "later" }] := by
  have h := all_none_update_only_touches_updated_at
    { id := "adm", tenant_id := some "t1", roles := some ["admin"],
      full_name := "Adm" }
    "u2" "j1" "l1" "later"
    { users := [{ id := "u2", tenant_id := some "t1", full_name := "Bea",
                  email := "b@x.y", updated_at := "earlier" }] }
    { id := "u2", tenant_id := some "t1", full_name := "Bea",
      email := "b@x.y", roles := some ["user"], password := "",
      updated_at := "later" }
    rfl
  simpa [updateFirst] using h

/-! ## Claim C8 -/

/-- C8: confirming a password reset twice with the same token: the first
call succeeds, updates the stored password hash and marks the reset
record used; the second call fails with 400 "Invalid or already used
token" and leaves the stored users (hence the password) unchanged. -/
theorem password_reset_confirm_single_use (u : UserRec)
    (uid newpw npw2 c lid now lid2 now2 : String)
    (hu : u.id = uid) :
    (confirm_password_reset
        { token := create_reset_token uid, new_password := newpw } lid now
        { users := [u],
          password_resets := [{ user_id := uid, token := create_reset_token uid,
                                used := false, created_at := c }] }).1 = .ok () ∧
    ((confirm_password_reset
        { token := create_reset_token uid, new_password := newpw } lid now
        { users := [u],
          password_resets := [{ user_id := uid, token := create_reset_token uid,
                                used := false, created_at := c }] }).2).users =
      [{ u with password := hash_password newpw, updated_at := now }] ∧
    ((confirm_password_reset
        { token := create_reset_token uid, new_password := newpw } lid now
        { users := [u],
          password_resets := [{ user_id := uid, token := create_reset_token uid,
                                used := false, created_at := c }] }).2).password_resets =
      [{ user_id := uid, token := create_reset_token uid,
         used := true, created_at := c }] ∧
    (confirm_password_reset
        { token := create_reset_token uid, new_password := npw2 } lid2 now2
        ((confirm_password_reset
          { token := create_reset_token uid, new_password := newpw } lid now
          { users := [u],
            password_resets := [{ user_id := uid, token := create_reset_token uid,
                                  used := false, created_at := c }] }).2)).1 =
      .error ⟨400, "Invalid or already used token"⟩ ∧
    ((confirm_password_reset
        { token := create_reset_token uid, new_password := npw2 } lid2 now2
        ((confirm_password_reset
          { token := create_reset_token uid, new_password := newpw } lid now
          { users := [u],
            password_resets := [{ user_id := uid, token := create_reset_token uid,
                                  used := false, created_at := c }] }).2)).2).users =
      ((confirm_password_reset
          { token := create_reset_token uid, new_password := newpw } lid now
          { users := [u],
            password_resets := [{ user_id := uid, token := create_reset_token uid,
                                  used := false, created_at := c }] }).2).users := by
  subst hu
  simp [confirm_password_reset, create_reset_token, updateFirst, log_action,
    List.find?]

/-- Witness for C8's theorem at a fully concrete input. -/
theorem password_reset_confirm_single_use_witness :
    (confirm_password_reset
        { token := create_reset_token "u1", new_password := "new" } "l1" "t1"
        { users := [{ id := "u1", full_name := "Ana" }],
          password_resets := [{ user_id := "u1",
                                token := create_reset_token "u1",
                                used := false, created_at := "t0" }] }).1 =
      .ok () ∧
    (confirm_password_reset
        { token := create_reset_token "u1", new_password := "other" } "l2" "t2"
        ((confirm_password_reset
          { token := create_reset_token "u1", new_password := "new" } "l1" "t1"
          { users := [{ id := "u1", full_name := "Ana" }],
            password_resets := [{ user_id := "u1",
                                  token := create_reset_token "u1",
                                  used := false, created_at := "t0" }] }).2)).1 =
      .error ⟨400, "Invalid or already used token"⟩ := by
  have h := password_reset_confirm_single_use
    { id := "u1", full_name := "Ana" }
    "u1" "new" "other" "t0" "l1" "t1" "l2" "t2" rfl
  exact ⟨h.1, h.2.2.2.1⟩

/-! ## Claim C10 -/

/-- C10: a denied `get_document` or `get_video` (404, permission 403, or
gradual-release 403) leaves the database — in particular the `views`
counters and the audit log — completely unchanged; a successful get
increments the record's `views` by exactly 1 and writes exactly one
`view` audit entry. -/
theorem views_increment_only_on_success (viewer : UserRec)
    (doc_id vid lid now lid2 now2 : String) (db : DB) :
    (∀ e, (get_document viewer doc_id lid now db).1 = .error e →
      (get_document viewer doc_id lid now db).2 = db) ∧
    (∀ d, (get_document viewer doc_id lid now db).1 = .ok d →
      ((get_document viewer doc_id lid now db).2).documents =
        updateFirst (fun x => x.id == doc_id)
          (fun x => { x with views := x.views + 1 }) db.documents ∧
      ((get_document viewer doc_id lid now db).2).audit_logs =
        db.audit_logs ++
          [{ id := lid, user_id := viewer.id, user_name := viewer.full_name,
             action := "view", resource_type := "document",
             resource_id := some doc_id, details := some [("title", d.title)],
             created_at := now }]) ∧
    (∀ e, (get_video viewer vid lid2 now2 db).1 = .error e →
      (get_video viewer vid lid2 now2 db).2 = db) ∧
    (∀ v, (get_video viewer vid lid2 now2 db).1 = .ok v →
      ((get_video viewer vid lid2 now2 db).2).videos =
        updateFirst (fun x => x.id == vid)
          (fun x => { x with views := x.views + 1 }) db.videos ∧
      ((get_video viewer vid lid2 now2 db).2).audit_logs =
        db.audit_logs ++
          [{ id := lid2, user_id := viewer.id, user_name := viewer.full_name,
             action := "view", resource_type := "video",
             resource_id := some vid, details := some [("title", v.title)],
             created_at := now2 }]) := by
  refine ⟨?_, ?_, ?_, ?_⟩
  · intro e h
    simp only [get_document] at h ⊢
    cases hfind : db.documents.find? (fun d => d.id == doc_id) with
    | none => rfl
    | some doc =>
      rw [hfind] at h
      dsimp only at h ⊢
      cases hp : (!doc.is_public && !check_permission viewer doc.permissions) with
      | true => simp [hp]
      | false =>
        rw [hp] at h
        simp at h
  · intro d h
    simp only [get_document] at h ⊢
    cases hfind : db.documents.find? (fun x => x.id == doc_id) with
    | none => rw [hfind] at h; simp at h
    | some doc =>
      rw [hfind] at h
      dsimp only at h ⊢
      cases hp : (!doc.is_public && !check_permission viewer doc.permissions) with
      | true =>
        rw [hp] at h
        simp at h
      | false =>
        rw [hp] at h
        simp only [Bool.false_eq_true, if_false] at h ⊢
        have hd : d = { doc with views := doc.views + 1 } := by
          simpa using h.symm
        subst hd
        simp [log_action]
  · intro e h
    simp only [get_video] at h ⊢
    cases hfind : db.videos.find? (fun v => v.id == vid) with
    | none => rfl
    | some video =>
      rw [hfind] at h
      dsimp only at h ⊢
      cases hp : (!video.is_public && !check_permission viewer video.permissions) with
      | true => simp [hp]
      | false =>
        rw [hp] at h
        cases hl : (check_video_access db video viewer.id).is_unlocked with
        | true =>
          rw [hl] at h
          simp at h
        | false =>
          rw [hl] at h
          simp [hl]
  · intro v h
    simp only [get_video] at h ⊢
    cases hfind : db.videos.find? (fun x => x.id == vid) with
    | none => rw [hfind] at h; simp at h
    | some video =>
      rw [hfind] at h
      dsimp only at h ⊢
      cases hp : (!video.is_public && !check_permission viewer video.permissions) with
      | true =>
        rw [hp] at h
        simp at h
      | false =>
        rw [hp] at h
        cases hl : (check_video_access db video viewer.id).is_unlocked with
        | true =>
          rw [hl] at h
          simp only [Bool.false_eq_true, Bool.true_eq_false, Bool.not_true,
            Bool.not_false, if_false, if_true] at h ⊢
          have hv : v = { video with views := video.views + 1 } := by
            simpa using h.symm
          subst hv
          simp [log_action]
        | false =>
          rw [hl] at h
          simp at h

/-- Witness for C10's theorem: a successful concrete document get bumps
`views` to 1 and writes the view audit entry; a 404 video get leaves the
state unchanged. -/
theorem views_increment_only_on_success_witness :
    ((get_document { id := "u1", full_name := "Ana" } "d1" "l1" "t1"
        { documents := [{ id := "d1", title := "Doc", is_public := true }] }).2).documents =
      [{ id := "d1", title := "Doc", is_public := true, views := 1 }] ∧
    (get_video { id := "u1", full_name := "Ana" } "nope" "l2" "t2"
        { documents := [{ id := "d1", title := "Doc", is_public := true }] }).2 =
      { documents := [{ id := "d1", title := "Doc", is_public := true }] } := by
  have h := views_increment_only_on_success { id := "u1", full_name := "Ana" }
    "d1" "nope" "l1" "t1" "l2" "t2"
    { documents := [{ id := "d1", title := "Doc", is_public := true }] }
  refine ⟨?_, ?_⟩
  · have h2 := (h.2.1 { id := "d1", title := "Doc", is_public := true, views := 1 } rfl).1
    simpa [updateFirst] using h2
  · exact h.2.2.1 ⟨404, "Video not found"⟩ rfl

end GestaoOrg
